import Mathlib

/-!
Verification development for the tldraw sync backend (server.js).

The definitions below are a shallow embedding of the backend's own logic:
the asset store (`storeAsset` / `loadAsset` and the `/uploads` HTTP
handlers), the snapshot store (`saveSnapshot` / `readSnapshotIfExists`),
the per-room lifecycle driven by the library callbacks and timers inside
`makeOrLoadRoom` (`persistData`, `onSessionRemoved`, `onDataChange`,
`persistInterval`), the retention sweeper (`cleanupOldRooms`), the URL
unfurler (`unfurl`) and the monitoring endpoint (`getRoomStatistics`).
Filesystem state is passed explicitly; timers become explicit events of a
step relation; the JSON parser of the runtime is an abstract parameter.
-/

namespace SyncServer

/-! ### Path model

The server builds every file path with node's `join`, which concatenates
the segments with `/` and then normalises `.` and `..` components.  Paths
are modelled as strings; `joinPath` reproduces `join(base, id)` for the
relative bases the server uses (`./.rooms`, `./.assets`). -/

/-- Split a character list at a separator character (all string splitting
below is done on character lists so that every definition reduces by
computation). -/
def splitCharAux (sep : Char) : List Char → List Char → List (List Char)
  | [], acc => [acc.reverse]
  | c :: rest, acc =>
    if c = sep then acc.reverse :: splitCharAux sep rest []
    else splitCharAux sep rest (c :: acc)

/-- Split a string into the pieces between occurrences of `sep`. -/
def splitChar (sep : Char) (s : String) : List String :=
  (splitCharAux sep s.data []).map (fun cs => String.mk cs)

/-- Whether `pat` occurs somewhere in `s` (substring test). -/
def containsList (pat : List Char) : List Char → Bool
  | [] => pat.isEmpty
  | c :: rest => pat.isPrefixOf (c :: rest) || containsList pat rest

/-- JS `s.startsWith(pre)`. -/
def strStartsWith (s pre : String) : Bool :=
  pre.data.isPrefixOf s.data

/-- JS `s.endsWith(suf)`. -/
def strEndsWith (s suf : String) : Bool :=
  suf.data.reverse.isPrefixOf s.data.reverse

/-- One step of node path normalisation over a stack of already-normalised
segments (stored in reverse order): drops empty and `.` segments, `..`
pops a previous real segment and is kept when there is nothing to pop. -/
def normStack (acc : List String) (seg : String) : List String :=
  if seg = "" || seg = "." then acc
  else if seg = ".." then
    match acc with
    | [] => [".."]
    | a :: rest => if a = ".." then ".." :: a :: rest else rest
  else seg :: acc

/-- Reassemble path segments with `/` separators. -/
def joinSegs : List String → String
  | [] => ""
  | [x] => x
  | x :: y :: rest => x ++ "/" ++ joinSegs (y :: rest)

/-- Model of node `path.join(base, id)` for relative `base`: concatenate,
split on `/`, normalise, reassemble. -/
def joinPath (base id : String) : String :=
  let segs := splitChar '/' (base ++ "/" ++ id)
  let r := (segs.foldl normStack []).reverse
  match r with
  | [] => "."
  | _ => joinSegs r

/-- `DIR = './.rooms'` from the source. -/
def roomsDir : String := "./.rooms"

/-- `ASSETS_DIR = './.assets'` from the source. -/
def assetsDir : String := "./.assets"

/-- The path `storeAsset`/`loadAsset` access for an asset id:
`join(ASSETS_DIR, id)`. -/
def assetPath (id : String) : String := joinPath assetsDir id

/-- The path `saveSnapshot`/`readSnapshotIfExists` access for a room id:
`join(DIR, roomId)`. -/
def roomPath (id : String) : String := joinPath roomsDir id

/-- An id "contains a path separator or the sequence `..`" in the words of
the spec's key constraint on the Snapshot Store. -/
def idIsTraversal (id : String) : Bool :=
  containsList ['/'] id.data || containsList ['.', '.'] id.data

/-! ### Asset filesystem model

A flat map from paths to file contents.  A file can be present with
readable bytes, or present but unreadable (an I/O error distinct from
ENOENT); absence from the map is ENOENT.  Bytes are lists of naturals. -/

/-- Outcome stored for a present file: readable bytes, or a read that
fails with an I/O error even though the file exists. -/
inductive ReadResult where
  | found (bytes : List Nat)
  | ioError
deriving DecidableEq, Repr

/-- Filesystem for the flat asset directory: association list from path to
the file's read outcome; a path not in the list does not exist (ENOENT). -/
abbrev AssetFS := List (String × ReadResult)

/-- Association-list lookup by path (first match wins, as in a map). -/
def fsLookup : AssetFS → String → Option ReadResult
  | [], _ => none
  | (q, r) :: rest, p => if q = p then some r else fsLookup rest p

/-- Remove every entry at a path (helper for overwrite). -/
def fsErase (fs : AssetFS) (p : String) : AssetFS :=
  fs.filter (fun e => !(e.1 = p))

/-- `writeFile(path, bytes)`: unconditional overwrite. -/
def fsWrite (fs : AssetFS) (p : String) (b : List Nat) : AssetFS :=
  (p, ReadResult.found b) :: fsErase fs p

/-- Whether a file exists at the path (it may still fail to read). -/
def fileExists (fs : AssetFS) (p : String) : Bool :=
  (fsLookup fs p).isSome

/-- `storeAsset(id, buffer)` from the source: `mkdir` then
`writeFile(join(ASSETS_DIR, id), buffer)`.  The id is used verbatim; no
check of any kind is performed on it. -/
def storeAsset (fs : AssetFS) (id : String) (buffer : List Nat) : AssetFS :=
  fsWrite fs (assetPath id) buffer

/-- `loadAsset(id)` from the source: `readFile(join(ASSETS_DIR, id))`
inside `try ... catch { return null }` — every failure, ENOENT or I/O
error alike, becomes `null`. -/
def loadAsset (fs : AssetFS) (id : String) : Option (List Nat) :=
  match fsLookup fs (assetPath id) with
  | some (ReadResult.found b) => some b
  | _ => none

/-- Response body `JSON.stringify({ ok: true })` of the PUT handler. -/
def okBody : String := "\x7b\"ok\":true\x7d"

/-- The `PUT /uploads/<id>` handler: concatenates the body chunks, calls
`storeAsset`, answers 200 with `{ ok: true }`.  `id` is the already
URL-decoded path remainder. -/
def putUploadHandler (fs : AssetFS) (id : String) (body : List Nat) :
    AssetFS × Nat × String :=
  (storeAsset fs id body, 200, okBody)

/-- The `GET /uploads/<id>` handler: `loadAsset`, then 200 with the bytes
when it returned data and 404 otherwise.  (A `Buffer` is always truthy in
JS, even when empty, so `if (data)` is exactly the `some` test.) -/
def getUploadHandler (fs : AssetFS) (id : String) : Nat × Option (List Nat) :=
  match loadAsset fs id with
  | some d => (200, some d)
  | none => (404, none)

/-! ### Room lifecycle model

`makeOrLoadRoom` wires four pieces of mutable state around each
`TLSocketRoom`: the `needsPersist` flag, the debounce handle
`saveTimeout`, the anonymous 30-second `setTimeout`s armed by
`onSessionRemoved`, and the 5-second `persistInterval`.  The collaboration
library's room is abstracted to its observable surface
(`getNumActiveSessions`, `isClosed`, `close`).  Each timer firing and each
callback invocation is an explicit event of a step function. -/

/-- Observable state of one room instance created by `makeOrLoadRoom`:
the room's session count and closed flag (library surface), the
`needsPersist` flag, registry membership of this instance in the `rooms`
map, the number of pending 30 s idle `setTimeout`s, whether a debounced
`saveTimeout` is pending, and whether `persistInterval` is still armed. -/
structure RoomLife where
  needsPersist : Bool
  numSessions : Nat
  closed : Bool
  registered : Bool
  idleTimers : Nat
  flushPending : Bool
  maintActive : Bool
deriving DecidableEq, Repr

/-- State right after `makeOrLoadRoom` created and registered a room:
clean, no sessions yet, open, registered, no pending timeouts, interval
armed. -/
def initRoom : RoomLife :=
  { needsPersist := false, numSessions := 0, closed := false,
    registered := true, idleTimers := 0, flushPending := false,
    maintActive := true }

/-- Events that mutate a room's lifecycle state.  `writeOk` tells whether
the `saveSnapshot` inside `persistData` succeeds; `changeDuringWrite`
tells whether an `onDataChange` interleaves with the awaited write. -/
inductive REv where
  | connect
  | disconnect
  | idleFire
  | dataChange
  | flushFire (writeOk : Bool) (changeDuringWrite : Bool)
  | maintTick (writeOk : Bool) (changeDuringWrite : Bool)
deriving DecidableEq, Repr

/-- The `needsPersist` flag after one run of `persistData`.  The source
sets `roomState.needsPersist = false` before `await saveSnapshot(...)`;
the `catch` only logs, so the flag is not restored on a failed write; a
concurrent `onDataChange` during the await sets it back to true. -/
def persistDataFlag (dirty _writeOk changeDuringWrite : Bool) : Bool :=
  if dirty then
    changeDuringWrite
  else dirty

/-- One lifecycle step, read off the callbacks and timers of
`makeOrLoadRoom`:
* `connect` — `handleSocketConnect` adds a session (no timer is touched);
* `disconnect` — `onSessionRemoved`; when the remaining count is 0 it
  arms a fresh anonymous 30 s `setTimeout` (nothing is ever cancelled);
* `idleFire` — one pending 30 s timeout fires: re-check
  `getNumActiveSessions() === 0` and `close()` the room if so;
* `dataChange` — `onDataChange`: set `needsPersist`, reset the debounce
  (`clearTimeout(saveTimeout); saveTimeout = setTimeout(persistData, 500)`),
  so at most one flush timeout is pending;
* `flushFire` — the debounce fires and runs `persistData`;
* `maintTick` — `persistInterval`: flush when dirty, then if the room is
  closed clear the interval and the debounce and delete the registry
  entry (the idle timeouts are anonymous and stay pending). -/
def stepRoom (s : RoomLife) : REv → RoomLife
  | REv.connect => { s with numSessions := s.numSessions + 1 }
  | REv.disconnect =>
      let n := s.numSessions - 1
      { s with numSessions := n,
               idleTimers := if n = 0 then s.idleTimers + 1 else s.idleTimers }
  | REv.idleFire =>
      if s.idleTimers = 0 then s
      else
        let s1 := { s with idleTimers := s.idleTimers - 1 }
        if s1.numSessions = 0 then { s1 with closed := true } else s1
  | REv.dataChange => { s with needsPersist := true, flushPending := true }
  | REv.flushFire w c =>
      if s.flushPending then
        { s with flushPending := false,
                 needsPersist := persistDataFlag s.needsPersist w c }
      else s
  | REv.maintTick w c =>
      if s.maintActive then
        let s1 :=
          if s.needsPersist then
            { s with needsPersist := persistDataFlag s.needsPersist w c }
          else s
        if s1.closed then
          { s1 with registered := false, maintActive := false,
                    flushPending := false }
        else s1
      else s

/-- Run a room through a list of lifecycle events. -/
def runRoom (s : RoomLife) (evs : List REv) : RoomLife :=
  evs.foldl stepRoom s

/-! ### Retention sweeper model

`cleanupOldRooms` lists the rooms directory, stats each file, and for each
file older than the retention period consults the in-memory `rooms` map:
the file is unlinked and the map entry deleted when the id is absent, or
the room is closed, or it has zero active sessions. -/

/-- The part of a registry entry `cleanupOldRooms` inspects:
`roomState.room.isClosed()` and `roomState.room.getNumActiveSessions()`. -/
structure RegEntry where
  closed : Bool
  activeSessions : Nat
deriving DecidableEq, Repr

/-- Registry lookup, `rooms.get(file)`. -/
def lookupReg : List (String × RegEntry) → String → Option RegEntry
  | [], _ => none
  | (q, e) :: rest, f => if q = f then some e else lookupReg rest f

/-- State the sweeper walks over: the rooms-directory listing, each file
with its `stat` mtime (`none` when `stat` failed and the file is
skipped), and the in-memory `rooms` registry. -/
structure SweepState where
  files : List (String × Option Int)
  registry : List (String × RegEntry)
deriving DecidableEq, Repr

/-- `(now - stats.mtime.getTime()) > ROOM_RETENTION_PERIOD`, and the
`stats && ...` guard: a failed `stat` never qualifies. -/
def fileExpired (now retention : Int) (mtime : Option Int) : Bool :=
  match mtime with
  | none => false
  | some t => now - t > retention

/-- The liveness check of `cleanupOldRooms`:
`!roomState || roomState.room.isClosed() || roomState.room.getNumActiveSessions() === 0`. -/
def roomDeletable (registry : List (String × RegEntry)) (f : String) : Bool :=
  match lookupReg registry f with
  | none => true
  | some e => e.closed || e.activeSessions = 0

/-- Whether the sweep over `s` deletes the file named `id` (and so also
runs `rooms.delete(id)`). -/
def roomSwept (s : SweepState) (now retention : Int) (id : String) : Bool :=
  s.files.any (fun fe =>
    fe.1 = id && fileExpired now retention fe.2 && roomDeletable s.registry id)

/-- `cleanupOldRooms`: when cleanup is enabled, unlink every expired file
that passes the liveness check and delete its registry entry; otherwise
return unchanged.  Decisions are taken against the registry as the sweep
found it. -/
def cleanupOldRooms (enabled : Bool) (s : SweepState) (now retention : Int) :
    SweepState :=
  if enabled then
    { files := s.files.filter (fun fe =>
        !(fileExpired now retention fe.2 && roomDeletable s.registry fe.1)),
      registry := s.registry.filter (fun re =>
        !(roomSwept s now retention re.1)) }
  else s

/-! ### Snapshot store and room loading

`readSnapshotIfExists` reads `join(DIR, roomId)` and runs `JSON.parse` on
it, with `?? undefined` mapping a parsed JSON `null` to `undefined` and a
catch-all turning every failure (missing file or parse exception) into
`undefined`.  `makeOrLoadRoom` seeds the new `TLSocketRoom` with that
value; `undefined` means an empty new room.  `JSON.parse` is the
runtime's parser, modelled as an abstract `String → Option Json`
parameter (`none` = the parser threw). -/

/-- JSON values, enough to distinguish `null` from everything else. -/
inductive Json where
  | jnull
  | jbool (b : Bool)
  | jnum (n : Int)
  | jstr (s : String)
  | jarr (xs : List Json)
  | jobj (fields : List (String × Json))
deriving Repr

/-- Room-directory filesystem: association list from path to the file's
text contents; absence means the file does not exist. -/
abbrev RoomDirFS := List (String × String)

/-- Read the snapshot file of a room: `readFile(join(DIR, roomId))`. -/
def readRoomFile : RoomDirFS → String → Option String
  | [], _ => none
  | (q, s) :: rest, id => if q = roomPath id then some s else readRoomFile rest id

/-- Delete the snapshot file of a room (used only to compare against the
absent-file behaviour). -/
def removeRoomFile (fs : RoomDirFS) (id : String) : RoomDirFS :=
  fs.filter (fun e => !(e.1 = roomPath id))

/-- `saveSnapshot(roomId, snapshot)`:
`writeFile(join(DIR, roomId), JSON.stringify(snapshot))`, with
`stringify` an abstract serialiser parameter. -/
def saveSnapshot (stringify : Json → String) (fs : RoomDirFS) (id : String)
    (snapshot : Json) : RoomDirFS :=
  (roomPath id, stringify snapshot) :: fs.filter (fun e => !(e.1 = roomPath id))

/-- `readSnapshotIfExists(roomId)`: `JSON.parse(data.toString()) ?? undefined`
inside `try ... catch { return undefined }`. -/
def readSnapshotIfExists (parse : String → Option Json) (fs : RoomDirFS)
    (id : String) : Option Json :=
  match readRoomFile fs id with
  | none => none
  | some s =>
    match parse s with
    | none => none
    | some Json.jnull => none
    | some v => some v

/-- The loading half of `makeOrLoadRoom` when no live room is registered:
the initial snapshot handed to `new TLSocketRoom({ initialSnapshot, ... })`
(`none` = seed absent = empty new room) together with the room directory,
which the load never mutates. -/
def loadRoomInit (parse : String → Option Json) (fs : RoomDirFS)
    (id : String) : Option Json × RoomDirFS :=
  (readSnapshotIfExists parse fs id, fs)

/-! ### Unfurl resolver

`unfurl(url)` destructures the result of the `unfurl.js` library call and
rebuilds a four-field object with `|| ''` defaults, taking the image from
the first Open-Graph image with fallback to the first Twitter-card image;
the surrounding `try/catch` maps every failure to the all-empty object. -/

/-- The fields the source destructures from the `unfurl.js` result:
`title`, `description`, `open_graph?.images?.[0]?.url`,
`twitter_card?.images?.[0]?.url`, `favicon`.  Each is `none` when the
optional chain yields `undefined`. -/
structure UnfurlRaw where
  title : Option String
  description : Option String
  ogImage : Option String
  twImage : Option String
  favicon : Option String
deriving Repr

/-- The object the server returns: always all four keys, all strings. -/
structure UnfurlResult where
  title : String
  description : String
  image : String
  favicon : String
deriving DecidableEq, Repr

/-- JS truthiness of an optional string: `undefined` and `''` are falsy. -/
def jsTruthyStr : Option String → Bool
  | none => false
  | some s => !(s = "")

/-- `x || ''` for an optional string. -/
def strOrEmpty : Option String → String
  | none => ""
  | some s => s

/-- `open_graph?.images?.[0]?.url || twitter_card?.images?.[0]?.url`
followed by the `image || ''` default in the result object. -/
def imageOf (og tw : Option String) : String :=
  if jsTruthyStr og then strOrEmpty og else strOrEmpty tw

/-- `unfurl(url)` as a function of the library call's outcome (`none` =
the fetch/parse threw, handled by the `catch` branch). -/
def unfurl (r : Option UnfurlRaw) : UnfurlResult :=
  match r with
  | none => { title := "", description := "", image := "", favicon := "" }
  | some raw =>
    { title := strOrEmpty raw.title,
      description := strOrEmpty raw.description,
      image := imageOf raw.ogImage raw.twImage,
      favicon := strOrEmpty raw.favicon }

/-- The `GET /unfurl` handler: `url.searchParams.get('url')` is `none`
when absent, and `if (targetUrl)` also rejects the empty string with 400;
otherwise the handler answers 200 with the unfurl result as JSON. -/
def unfurlHandler (urlParam : Option String) (fetched : Option UnfurlRaw) :
    Nat × Option UnfurlResult :=
  match urlParam with
  | none => (400, none)
  | some u => if u = "" then (400, none) else (200, some (unfurl fetched))

/-! ### Room statistics endpoint

`getRoomStatistics` lists the rooms directory, keeps only file names
ending in `.tldr`, strips that suffix for the display name, computes
`isActive` as `now - mtime < 24h`, accumulates totals over the kept files
and sorts the entries by `lastModified` descending. -/

/-- A rooms-directory listing entry with its `stat` data. -/
structure RoomFileEntry where
  name : String
  size : Nat
  mtime : Int
deriving DecidableEq, Repr

/-- One element of the `rooms` array in the response. -/
structure RoomEntryOut where
  name : String
  size : Nat
  lastModified : Int
  isActive : Bool
deriving DecidableEq, Repr

/-- The aggregate response of `GET /api/rooms` (without the ambient
`lastUpdated` wall-clock stamp). -/
structure RoomStats where
  totalRooms : Nat
  activeRooms : Nat
  storageUsed : Nat
  rooms : List RoomEntryOut
deriving DecidableEq, Repr

/-- Drop the first occurrence of `pat` from a character list (helper for
JS `String.replace` with the empty replacement). -/
def dropFirstMatch (pat : List Char) : List Char → List Char
  | [] => []
  | c :: rest =>
    if pat.isPrefixOf (c :: rest) then (c :: rest).drop pat.length
    else c :: dropFirstMatch pat rest

/-- `file.replace('.tldr', '')`: JS `String.replace` with a string
pattern replaces only the first occurrence. -/
def replaceFirst (s pat : String) : String :=
  String.mk (dropFirstMatch pat.data s.data)

/-- The 24 h activity window, in milliseconds. -/
def activeWindowMs : Int := 24 * 60 * 60 * 1000

/-- Insert into a list kept sorted by `lastModified` descending
(the JS comparator `(a, b) => dateOf(b) - dateOf(a)`). -/
def insertByMtimeDesc (e : RoomEntryOut) : List RoomEntryOut → List RoomEntryOut
  | [] => [e]
  | x :: xs =>
    if x.lastModified < e.lastModified then e :: x :: xs
    else x :: insertByMtimeDesc e xs

/-- Sort the rooms array by `lastModified` descending. -/
def sortByMtimeDesc (l : List RoomEntryOut) : List RoomEntryOut :=
  l.foldr insertByMtimeDesc []

/-- `getRoomStatistics()` over the directory listing: only files whose
name ends with `.tldr` contribute an entry and count toward the totals;
each entry's name drops the `.tldr`, `isActive` is `now - mtime < 24h`,
and the array is sorted by `lastModified` descending. -/
def getRoomStatistics (files : List RoomFileEntry) (now : Int) : RoomStats :=
  let sel := files.filter (fun f => strEndsWith f.name ".tldr")
  let entries := sel.map (fun f =>
    { name := replaceFirst f.name ".tldr", size := f.size,
      lastModified := f.mtime,
      isActive := now - f.mtime < activeWindowMs : RoomEntryOut })
  { totalRooms := sel.length,
    activeRooms := (entries.filter (fun e => e.isActive)).length,
    storageUsed := (sel.map (fun f => f.size)).sum,
    rooms := sortByMtimeDesc entries }

/-! ## Theorems -/

/-- C1 counterexample: a dirty room whose debounced flush fires and whose
snapshot write fails (with no change interleaving the write) ends with
`needsPersist = false`, and likewise when the failing flush is run by the
maintenance tick — the claim says the dirty flag remains set after a
failed write so the next tick retries, but `persistData` clears the flag
before the write and its `catch` does not restore it. -/
theorem dirty_cleared_on_failed_flush_cex :
    (stepRoom { initRoom with needsPersist := true, flushPending := true }
        (REv.flushFire false false)).needsPersist = false ∧
    (stepRoom { initRoom with needsPersist := true }
        (REv.maintTick false false)).needsPersist = false := by decide

/-- C1 (amended): `persistData` clears the dirty flag up front and never
restores it on failure, so after any flush attempt the flag equals
"dirty before ∧ a change arrived during the write", independently of
whether the write succeeded; a failed write is therefore retried only if
a new change arrives, not by the bare maintenance tick. -/
theorem dirty_after_flush_eq_change_during_write :
    (∀ d w c : Bool, persistDataFlag d w c = (d && c)) ∧
    (∀ (s : RoomLife) (w c : Bool), s.flushPending = true →
      (stepRoom s (REv.flushFire w c)).needsPersist = (s.needsPersist && c)) ∧
    (∀ (s : RoomLife) (w c : Bool), s.maintActive = true →
      (stepRoom s (REv.maintTick w c)).needsPersist = (s.needsPersist && c)) := by
  refine ⟨?_, ?_, ?_⟩
  · intro d w c
    cases d <;> cases c <;> rfl
  · intro s w c h
    cases hd : s.needsPersist <;>
      simp [stepRoom, h, hd, persistDataFlag]
  · intro s w c h
    cases hd : s.needsPersist <;> cases hc : s.closed <;>
      simp [stepRoom, h, hd, hc, persistDataFlag]

/-- Witness for the amended C1 theorem at a concrete dirty room with a
pending debounce and a successful write with no interleaved change. -/
theorem dirty_after_flush_eq_change_during_write_witness :
    (stepRoom { initRoom with needsPersist := true, flushPending := true }
        (REv.flushFire true false)).needsPersist
      = (true && false) :=
  dirty_after_flush_eq_change_during_write.2.1
    { initRoom with needsPersist := true, flushPending := true } true false rfl

/-- C2 counterexample: after connect, disconnect and the idle timeout
firing, the room is closed yet still registered (the registry entry is
only removed by the next 5 s maintenance tick), and the sweeper evicts a
registered room that is NOT closed (zero sessions, aged file) — both
directions of "in the registry ⇔ not closed" fail. -/
theorem closed_room_still_registered_cex :
    ((runRoom initRoom [REv.connect, REv.disconnect, REv.idleFire]).closed
        = true ∧
      (runRoom initRoom [REv.connect, REv.disconnect, REv.idleFire]).registered
        = true) ∧
    (lookupReg [("r", RegEntry.mk false 0)] "r" = some (RegEntry.mk false 0) ∧
      (cleanupOldRooms true
          (SweepState.mk [("r", some 0)] [("r", RegEntry.mk false 0)])
          10 1).registry = []) := by decide

/-- C2 (amended): registry membership and the closed flag may diverge
transiently — a Room that closes stays registered until the maintenance
tick, and the sweeper may evict a live zero-session Room; what holds is
that every maintenance tick removes a closed Room from the registry (and
the Room stays closed). -/
theorem maint_tick_deregisters_closed_room :
    ∀ (s : RoomLife) (w c : Bool), s.closed = true → s.maintActive = true →
      (stepRoom s (REv.maintTick w c)).registered = false ∧
      (stepRoom s (REv.maintTick w c)).closed = true := by
  intro s w c hcl hma
  cases hd : s.needsPersist <;>
    simp [stepRoom, hma, hd, hcl, persistDataFlag]

/-- Witness for the amended C2 theorem at a concrete closed, registered
room with an armed maintenance interval. -/
theorem maint_tick_deregisters_closed_room_witness :
    (stepRoom { initRoom with closed := true }
        (REv.maintTick true false)).registered = false :=
  (maint_tick_deregisters_closed_room _ true false rfl rfl).1

/-- C3 counterexample: connect, disconnect, connect, disconnect leaves
TWO pending 30 s idle timeouts (the claim allows at most one), and after
connect, disconnect, connect a session is attached while one idle timeout
is still pending (the claim says attaching cancels it). -/
theorem multiple_idle_timers_cex :
    (runRoom initRoom
        [REv.connect, REv.disconnect, REv.connect, REv.disconnect]).idleTimers
      = 2 ∧
    (runRoom initRoom [REv.connect, REv.disconnect, REv.connect]).idleTimers
      = 1 ∧
    (runRoom initRoom [REv.connect, REv.disconnect, REv.connect]).numSessions
      = 1 := by decide

/-- C3 (amended): an idle timeout is armed each time the session count
drops to zero and is never cancelled — attaching leaves every pending
timeout in place, so several can be pending at once; instead of
cancellation, a firing timeout re-checks the session count and closes the
room only when it is still zero, and firing consumes exactly one pending
timeout. -/
theorem idle_timers_never_cancelled :
    (∀ s : RoomLife, (stepRoom s REv.connect).idleTimers = s.idleTimers) ∧
    (∀ s : RoomLife, s.numSessions = 1 →
      (stepRoom s REv.disconnect).idleTimers = s.idleTimers + 1) ∧
    (∀ s : RoomLife, 0 < s.numSessions →
      (stepRoom s REv.idleFire).closed = s.closed) ∧
    (∀ s : RoomLife, 0 < s.idleTimers →
      (stepRoom s REv.idleFire).idleTimers = s.idleTimers - 1) := by
  refine ⟨?_, ?_, ?_, ?_⟩
  · intro s; rfl
  · intro s h; simp [stepRoom, h]
  · intro s h
    rcases Nat.eq_zero_or_pos s.idleTimers with h0 | h0
    · simp [stepRoom, h0]
    · have h1 : ¬ s.idleTimers = 0 := Nat.pos_iff_ne_zero.mp h0
      have h2 : ¬ s.numSessions = 0 := Nat.pos_iff_ne_zero.mp h
      simp [stepRoom, h1, h2]
  · intro s h
    have h1 : ¬ s.idleTimers = 0 := Nat.pos_iff_ne_zero.mp h
    cases hn : s.numSessions <;> simp [stepRoom, h1, hn]

/-- Witness for the amended C3 theorem: disconnecting the only session of
a concrete room arms one more idle timeout. -/
theorem idle_timers_never_cancelled_witness :
    (stepRoom { initRoom with numSessions := 1 } REv.disconnect).idleTimers
      = ({ initRoom with numSessions := 1 } : RoomLife).idleTimers + 1 :=
  idle_timers_never_cancelled.2.1 _ rfl

/-- C4: the asset operations never refuse a traversal id — code bug.  The
id `"../escape"` contains both a separator and `..`, yet `storeAsset`
writes (and `loadAsset` reads back) the file at `join('./.assets',
'../escape') = 'escape'`, a path outside the assets directory, instead of
failing; spec §9 records this as a latent bug of the source. -/
theorem asset_id_traversal_not_refused :
    idIsTraversal "../escape" = true ∧
    idIsTraversal "img" = false ∧
    assetPath "../escape" = "escape" ∧
    strStartsWith (assetPath "../escape") ".assets/" = false ∧
    strStartsWith (assetPath "img") ".assets/" = true ∧
    loadAsset (storeAsset [] "../escape" [1, 2, 3]) "../escape"
      = some [1, 2, 3] := by decide

/-- Helper: association lookup is unchanged by a filter that keeps every
entry carrying the looked-up key. -/
theorem lookupReg_filter_keep (p : String × RegEntry → Bool)
    (l : List (String × RegEntry)) (id : String)
    (hk : ∀ e : RegEntry, p (id, e) = true) :
    lookupReg (l.filter p) id = lookupReg l id := by
  induction l with
  | nil => rfl
  | cons x rest ih =>
    obtain ⟨q, e⟩ := x
    by_cases hq : q = id
    · subst hq
      simp [List.filter_cons, hk e, lookupReg]
    · by_cases hp : p (q, e) = true
      · simp [List.filter_cons, hp, lookupReg, hq, ih]
      · simp [List.filter_cons, hp, lookupReg, hq, ih]

/-- C5: the retention sweeper never deletes the snapshot file of a room
that is registered, not closed, and has at least one active session — its
file entries and its registry entry survive `cleanupOldRooms` — and every
file the sweep does delete was expired and passed the liveness check
(id absent, or room closed, or zero active sessions). -/
theorem sweeper_never_deletes_live_room :
    ∀ (enabled : Bool) (s : SweepState) (now retention : Int)
      (id : String) (e : RegEntry),
      lookupReg s.registry id = some e →
      e.closed = false → 0 < e.activeSessions →
      (∀ mt : Option Int, (id, mt) ∈ s.files →
        (id, mt) ∈ (cleanupOldRooms enabled s now retention).files) ∧
      lookupReg (cleanupOldRooms enabled s now retention).registry id
        = some e ∧
      (∀ fe : String × Option Int, fe ∈ s.files →
        fe ∉ (cleanupOldRooms enabled s now retention).files →
        enabled = true ∧ fileExpired now retention fe.2 = true ∧
        roomDeletable s.registry fe.1 = true) := by
  intro enabled s now retention id e hlook hcl hact
  have hdel : roomDeletable s.registry id = false := by
    simp only [roomDeletable, hlook, hcl, Bool.false_or,
      decide_eq_false_iff_not]
    omega
  cases enabled with
  | false =>
    refine ⟨fun mt hm => ?_, ?_, fun fe hm hnm => ?_⟩
    · simpa [cleanupOldRooms] using hm
    · simpa [cleanupOldRooms] using hlook
    · exact absurd hm (by simpa [cleanupOldRooms] using hnm)
  | true =>
    have hswept : roomSwept s now retention id = false := by
      simp [roomSwept, hdel]
    refine ⟨fun mt hm => ?_, ?_, fun fe hm hnm => ?_⟩
    · simp only [cleanupOldRooms, if_true]
      exact List.mem_filter.mpr ⟨hm, by simp [hdel]⟩
    · simp only [cleanupOldRooms, if_true]
      rw [lookupReg_filter_keep _ _ _ (fun e2 => by simp [hswept])]
      exact hlook
    · simp only [cleanupOldRooms, if_true] at hnm
      cases hb : (fileExpired now retention fe.2 &&
          roomDeletable s.registry fe.1) with
      | false => exact absurd (List.mem_filter.mpr ⟨hm, by simp [hb]⟩) hnm
      | true => exact ⟨rfl, ((Bool.and_eq_true _ _).mp hb).1,
          ((Bool.and_eq_true _ _).mp hb).2⟩

/-- Witness for C5: a concrete sweep over an aged file whose room is live
with two sessions keeps the file. -/
theorem sweeper_never_deletes_live_room_witness :
    ("live", some (0 : Int)) ∈
      (cleanupOldRooms true
        (SweepState.mk [("live", some 0)] [("live", RegEntry.mk false 2)])
        10 1).files :=
  (sweeper_never_deletes_live_room true
      (SweepState.mk [("live", some 0)] [("live", RegEntry.mk false 2)])
      10 1 "live" (RegEntry.mk false 2)
      (by decide) rfl (by decide)).1 (some 0) (by decide)

/-- C6 counterexample: an asset file that exists but whose read fails
with an I/O error makes `GET /uploads/<id>` answer 404, not the 500 the
claim requires — `loadAsset`'s catch-all maps every failure to `null`. -/
theorem io_error_read_returns_404_cex :
    fileExists [(assetPath "img", ReadResult.ioError)] (assetPath "img")
      = true ∧
    getUploadHandler [(assetPath "img", ReadResult.ioError)] "img"
      = (404, none) ∧
    ¬ (getUploadHandler [(assetPath "img", ReadResult.ioError)] "img").1
      = 500 := by decide

/-- C6 (amended): `GET /uploads/<id>` answers 200 with the bytes exactly
when the read yields data, and 404 on every failure — missing file or
I/O error on an existing file alike; it never answers 500. -/
theorem get_upload_status_amended :
    ∀ (fs : AssetFS) (id : String),
      ¬ (getUploadHandler fs id).1 = 500 ∧
      ((getUploadHandler fs id).1 = 404 ↔ loadAsset fs id = none) ∧
      (∀ b : List Nat, loadAsset fs id = some b →
        getUploadHandler fs id = (200, some b)) := by
  intro fs id
  cases h : loadAsset fs id with
  | none => simp [getUploadHandler, h]
  | some b => simp [getUploadHandler, h]

/-- Witness for the amended C6 theorem: a readable stored asset is served
with 200 and its bytes. -/
theorem get_upload_status_amended_witness :
    getUploadHandler [(assetPath "a", ReadResult.found [7])] "a"
      = (200, some [7]) :=
  (get_upload_status_amended [(assetPath "a", ReadResult.found [7])] "a").2.2
    [7] (by decide)

/-- C7: `GET /api/rooms` misses the server's own snapshot files — code
bug.  `saveSnapshot` names the file for room `alpha` exactly `alpha`
(under `./.rooms`), that name does not end in `.tldr`, and
`getRoomStatistics` therefore reports zero rooms and an empty array for a
directory holding exactly that file, instead of the one entry the claim
requires. -/
theorem stats_omit_snapshot_files :
    roomPath "alpha" = ".rooms/alpha" ∧
    strEndsWith "alpha" ".tldr" = false ∧
    getRoomStatistics [RoomFileEntry.mk "alpha" 100 0] 0
      = RoomStats.mk 0 0 0 [] := by decide

/-- C8: the unfurl operation always yields the full four-field record of
strings — on fetch/parse failure the all-empty record; a missing title,
description or favicon becomes the empty string; the image comes from the
Open-Graph tag with fallback to the Twitter-card tag; and the `/unfurl`
handler answers 200 with that record whenever the `url` parameter is
non-empty (and 400 when it is missing). -/
theorem unfurl_contract :
    (unfurl none = UnfurlResult.mk "" "" "" "") ∧
    (∀ raw : UnfurlRaw, raw.title = none → (unfurl (some raw)).title = "") ∧
    (∀ raw : UnfurlRaw, raw.description = none →
      (unfurl (some raw)).description = "") ∧
    (∀ raw : UnfurlRaw, raw.favicon = none →
      (unfurl (some raw)).favicon = "") ∧
    (∀ (raw : UnfurlRaw) (s : String), raw.ogImage = some s → ¬ s = "" →
      (unfurl (some raw)).image = s) ∧
    (∀ raw : UnfurlRaw, raw.ogImage = none →
      (unfurl (some raw)).image = strOrEmpty raw.twImage) ∧
    (∀ (u : String) (fetched : Option UnfurlRaw), ¬ u = "" →
      unfurlHandler (some u) fetched = (200, some (unfurl fetched))) ∧
    (unfurlHandler none none = (400, none)) := by
  refine ⟨rfl, ?_, ?_, ?_, ?_, ?_, ?_, rfl⟩
  · intro raw h; simp [unfurl, strOrEmpty, h]
  · intro raw h; simp [unfurl, strOrEmpty, h]
  · intro raw h; simp [unfurl, strOrEmpty, h]
  · intro raw s hog hne
    simp [unfurl, imageOf, jsTruthyStr, hog, hne, strOrEmpty]
  · intro raw h; simp [unfurl, imageOf, jsTruthyStr, h]
  · intro u fetched h; simp [unfurlHandler, h]

/-- Witness for C8: a non-empty url whose fetch failed is answered 200
with the all-empty record. -/
theorem unfurl_contract_witness :
    unfurlHandler (some "http://x") none = (200, some (unfurl none)) :=
  unfurl_contract.2.2.2.2.2.2.1 "http://x" none (by decide)

/-- C9: `PUT /uploads/<id>` answers 200 with `{"ok":true}`, and an
immediately following `GET /uploads/<id>` on the resulting store answers
200 with exactly the bytes that were put, for every prior store content,
id and byte sequence. -/
theorem put_then_get_returns_bytes :
    ∀ (fs : AssetFS) (id : String) (b : List Nat),
      (putUploadHandler fs id b).2 = (200, okBody) ∧
      getUploadHandler (putUploadHandler fs id b).1 id = (200, some b) := by
  intro fs id b
  refine ⟨rfl, ?_⟩
  simp [putUploadHandler, getUploadHandler, storeAsset, loadAsset, fsWrite,
    fsLookup]

/-- Helper: after deleting a room's snapshot file, reading it back finds
nothing. -/
theorem readRoomFile_removeRoomFile (fs : RoomDirFS) (id : String) :
    readRoomFile (removeRoomFile fs id) id = none := by
  induction fs with
  | nil => rfl
  | cons x rest ih =>
    obtain ⟨q, s⟩ := x
    by_cases hq : q = roomPath id
    · simpa [removeRoomFile, List.filter_cons, hq] using ih
    · simpa [removeRoomFile, List.filter_cons, hq, readRoomFile] using ih

/-- C10: a snapshot file that exists but does not parse (or parses to the
JSON literal `null`) loads exactly like an absent snapshot — the room is
seeded with no initial snapshot (an empty new room), the room directory
is left untouched (the corrupt file stays in place), and the seed equals
the one obtained with the file absent. -/
theorem corrupt_snapshot_loads_as_empty :
    ∀ (parse : String → Option Json) (fs : RoomDirFS) (id s : String),
      readRoomFile fs id = some s →
      (parse s = none ∨ parse s = some Json.jnull) →
      (loadRoomInit parse fs id).1 = none ∧
      (loadRoomInit parse fs id).2 = fs ∧
      (loadRoomInit parse fs id).1
        = (loadRoomInit parse (removeRoomFile fs id) id).1 := by
  intro parse fs id s hread hp
  have habs : readSnapshotIfExists parse (removeRoomFile fs id) id = none := by
    simp [readSnapshotIfExists, readRoomFile_removeRoomFile]
  have h1 : readSnapshotIfExists parse fs id = none := by
    rcases hp with h | h <;> simp [readSnapshotIfExists, hread, h]
  refine ⟨h1, rfl, ?_⟩
  show readSnapshotIfExists parse fs id
      = readSnapshotIfExists parse (removeRoomFile fs id) id
  rw [h1, habs]

/-- Witness for C10: a concrete unparseable snapshot file yields an empty
seed. -/
theorem corrupt_snapshot_loads_as_empty_witness :
    (loadRoomInit (fun _ => none) [(roomPath "r", "not json")] "r").1
      = none :=
  (corrupt_snapshot_loads_as_empty (fun _ => none)
      [(roomPath "r", "not json")] "r" "not json" (by decide) (Or.inl rfl)).1

end SyncServer
